import Mathlib

set_option maxRecDepth 8000

/-!
Verification of the ESQL-to-XSD conversion service (`src/Node.js`).

The repository is a single Express application.  The handler for
`POST /api/convert` and the conversion function `convertESQLToXSD` are
embedded below as pure Lean functions.  JavaScript strings are modelled
as Lean `String`; JSON field values that the handler consults can also be
numbers (JavaScript is dynamically typed), which is modelled by `JSVal`.
Wall-clock time (`new Date().toISOString()`) is passed in explicitly as a
`now : String` parameter, so every function is deterministic.

The file embeds revision 1 of the handler (the first document in
`src/Node.js`, lines 1-169); revision 3 (lines 272-473) has the identical
handler and additionally a global error-handling middleware, which is
modelled by `errorMiddlewareResponse`.
-/

namespace EsqlXsd

/-- A JavaScript value appearing in a parsed JSON body field.  Strings and
numbers suffice for the behaviours verified here; `num` exercises the
dynamic-typing failure paths (`TypeError: x.f is not a function`). -/
inductive JSVal where
  | str (s : String)
  | num (n : Int)
deriving DecidableEq, Repr

/-- JavaScript truthiness of a value: `''` and `0` are falsy. -/
def JSVal.truthy : JSVal → Bool
  | .str s => s ≠ ""
  | .num n => n ≠ 0

/-- Truthiness of a possibly-undefined value (`undefined` is falsy). -/
def optTruthy : Option JSVal → Bool
  | some v => v.truthy
  | none => false

/-- JavaScript `a || b` on possibly-undefined values: yields `a`'s value
when it is truthy, otherwise `b`'s value. -/
def jsOr (a b : Option JSVal) : Option JSVal :=
  match a with
  | some v => if v.truthy then some v else b
  | none => b

/-- JavaScript `a || d` where `d` is a definite default value
(`req.body.filename || 'input.esql'`). -/
def jsOrDefault (a : Option JSVal) (d : JSVal) : JSVal :=
  match a with
  | some v => if v.truthy then v else d
  | none => d

/-- Template-literal interpolation stringifies the value. -/
def JSVal.display : JSVal → String
  | .str s => s
  | .num n => toString n

/-- JavaScript `.length` of a value.  Only ever reached on strings: the
handler calls it on `esqlContent` after `convertESQLToXSD` succeeded,
which requires `esqlContent` to be a string. -/
def JSVal.jsLength : JSVal → Nat
  | .str s => s.length
  | .num _ => 0

/-- The set of characters removed by `String.prototype.trim` that can
occur here (ASCII whitespace). -/
def isJsWhitespace (c : Char) : Bool :=
  c = ' ' ∨ c = '\t' ∨ c = '\n' ∨ c = '\r' ∨ c = '\x0b' ∨ c = '\x0c'

/-- JavaScript `s.trim()`. -/
def jsTrim (s : String) : String :=
  ⟨((s.data.dropWhile isJsWhitespace).reverse.dropWhile isJsWhitespace).reverse⟩

/-! ### The XSD template (`src/Node.js` lines 24-83)

The JavaScript template literal is the concatenation of fixed text with
two interpolations (`${originalFileName}` and the timestamp).  It is
embedded as the concatenation of its constant segments; the two comment
openers are split off as named segments so that theorems can speak about
the generated comments. -/

/-- Template text before the first generated comment. -/
def tplHead : String := "<?xml version=\"1.0\" encoding=\"UTF-8\"?>\n<xs:schema xmlns:xs=\"http://www.w3.org/2001/XMLSchema\"\n           targetNamespace=\"http://esql.conversion.schema\"\n           xmlns:tns=\"http://esql.conversion.schema\"\n           elementFormDefault=\"qualified\"\n           attributeFormDefault=\"unqualified\">\n    \n    "

/-- Opener of the file-name comment. -/
def cmtFile : String := "<!-- Generated from ESQL file: "

/-- Text between the file-name interpolation and the timestamp comment. -/
def tplMid : String := " -->\n    "

/-- Opener of the timestamp comment. -/
def cmtOn : String := "<!-- Generated on: "

/-- Template text after the timestamp interpolation (the fixed schema
skeleton).  It is defined as a concatenation of segments `tail0`-`tail5`
(split purely so that proofs can evaluate the scanner piecewise); the
concatenation is byte-identical to the source literal. -/
def tail0 : String := " -->\n    \n    "

def tail1 : String := "<!-- Root element definition -->\n    <xs:element name=\"TransformedMessage\" type=\"tns:TransformedMessageType\"/>\n    \n    <!-- Main complex type for transformed message -->\n    <xs:complexType name=\"TransformedMessageType\">\n        <xs:sequence>\n            <xs:element name=\"Header\" type=\"tns:HeaderType\" minOccurs=\"0\"/>\n            <xs:element name=\"Body\" type=\"tns:BodyType\" minOccurs=\"0\"/>\n            <xs:element name=\"ProcessingInfo\" type=\"tns:ProcessingInfoType\" minOccurs=\"0\"/>\n"

def tail2 : String := "        </xs:sequence>\n    </xs:complexType>\n    \n    <!-- Header type definition -->\n    <xs:complexType name=\"HeaderType\">\n        <xs:sequence>\n            <xs:element name=\"MessageID\" type=\"xs:string\" minOccurs=\"0\"/>\n            <xs:element name=\"Timestamp\" type=\"xs:dateTime\" minOccurs=\"0\"/>\n            <xs:element name=\"Source\" type=\"xs:string\" minOccurs=\"0\"/>\n            <xs:element name=\"Destination\" type=\"xs:string\" minOccurs=\"0\"/>\n        </xs:sequence>\n"

def tail3 : String := "    </xs:complexType>\n    \n    <!-- Processing info type -->\n    <xs:complexType name=\"ProcessingInfoType\">\n        <xs:sequence>\n            <xs:element name=\"Timestamp\" type=\"xs:dateTime\" minOccurs=\"0\"/>\n            <xs:element name=\"ProcessedBy\" type=\"xs:string\" minOccurs=\"0\"/>\n            <xs:element name=\"Status\" type=\"tns:ProcessingStatusType\" minOccurs=\"0\"/>\n        </xs:sequence>\n    </xs:complexType>\n    \n    <!-- Processing status enumeration -->\n"

def tail4 : String := "    <xs:simpleType name=\"ProcessingStatusType\">\n        <xs:restriction base=\"xs:string\">\n            <xs:enumeration value=\"SUCCESS\"/>\n            <xs:enumeration value=\"PROCESSING\"/>\n            <xs:enumeration value=\"ERROR\"/>\n            <xs:enumeration value=\"COMPLETED\"/>\n        </xs:restriction>\n    </xs:simpleType>\n\n    <!-- Body type definition -->\n    <xs:complexType name=\"BodyType\">\n        <xs:sequence>\n            <xs:element name=\"ProcessingResult\" type=\"xs:string\" minOccurs=\"0\"/>\n"

def tail5 : String := "            <xs:element name=\"ProcessedElements\" type=\"xs:integer\" minOccurs=\"0\"/>\n        </xs:sequence>\n    </xs:complexType>\n\n</xs:schema>"






def tplTail : String := tail0 ++ tail1 ++ tail2 ++ tail3 ++ tail4 ++ tail5

/-- The rendered template: constant text with the file name and the
timestamp interpolated (the two `${...}` holes of the source literal). -/
def xsdTemplate (fn now : String) : String :=
  tplHead ++ cmtFile ++ fn ++ tplMid ++ cmtOn ++ now ++ tplTail

/-- `convertESQLToXSD(esqlCode, originalFileName)` (lines 17-86), with the
wall clock passed explicitly.  Throwing is modelled by `Except.error`
carrying the thrown error's message.  The guard is
`if (!esqlCode || esqlCode.trim() === '')`; when `esqlCode` is truthy but
not a string, `esqlCode.trim()` raises a `TypeError`. -/
def convertESQLToXSD (esqlCode originalFileName : JSVal) (now : String) :
    Except String String :=
  if ¬ esqlCode.truthy then .error "ESQL content is empty"
  else
    match esqlCode with
    | .num _ => .error "esqlCode.trim is not a function"
    | .str s =>
      if jsTrim s = "" then .error "ESQL content is empty"
      else .ok (xsdTemplate originalFileName.display now)

/-! ### The `POST /api/convert` handler (lines 89-128) -/

/-- An uploaded file (`req.files.file`): declared name and UTF-8 decoded
content. -/
structure UploadedFile where
  name : String
  data : String
deriving DecidableEq, Repr

/-- The parsed request body: a plain-text body (`express.text`), a JSON
object with the three fields the handler consults (`express.json`), or no
body at all. -/
inductive ReqBody where
  | text (s : String)
  | json (content esqlContent filename : Option JSVal)
  | absent
deriving DecidableEq, Repr

/-- An inbound `POST /api/convert` request. -/
structure Request where
  file : Option UploadedFile
  body : ReqBody
deriving DecidableEq, Repr

/-- The value held by the handler's `esqlContent` variable after the
extraction block (lines 91-102): file data, the raw text body,
`req.body.content || req.body.esqlContent` for JSON, or the initial `''`
when no body is present. -/
def extractContent (req : Request) : Option JSVal :=
  match req.file with
  | some f => some (.str f.data)
  | none =>
    match req.body with
    | .text s => some (.str s)
    | .json content esqlContent _ => jsOr content esqlContent
    | .absent => some (.str "")

/-- The value held by the handler's `fileName` variable: the uploaded
file's name, `req.body.filename || 'input.esql'` (on a plain-string body
`.filename` is `undefined`), or the initial `'unknown.esql'` when no body
is present. -/
def extractFileName (req : Request) : JSVal :=
  match req.file with
  | some f => .str f.name
  | none =>
    match req.body with
    | .text _ => .str "input.esql"
    | .json _ _ filename => jsOrDefault filename (.str "input.esql")
    | .absent => .str "unknown.esql"

/-- `fileName.replace(/\.esql$/i, '.xsd')` on a string: replace one
trailing case-insensitive `.esql` by `.xsd`, else return the string
unchanged. -/
def replaceEsqlSuffix (s : String) : String :=
  if List.isSuffixOf ".esql".data (s.data.map Char.toLower) then
    String.mk (s.data.take (s.data.length - 5)) ++ ".xsd"
  else s

/-- Line 109, `const outputFileName = fileName.replace(...)`: raises a
`TypeError` when `fileName` is not a string. -/
def outputFileName : JSVal → Except String String
  | .str s => .ok (replaceEsqlSuffix s)
  | .num _ => .error "fileName.replace is not a function"

/-- The success payload of `res.json` (lines 111-120). -/
structure SuccessPayload where
  originalFileName : String
  convertedFileName : String
  xsdContent : String
  esqlContentLength : Nat
  xsdContentLength : Nat
  conversionDate : String
  conversionType : String
deriving DecidableEq, Repr

/-- The handler's response: `res.json(...)` (HTTP 200) on success, or
`res.status(400).json({success:false, error:...})` from the catch block. -/
inductive ConvertResponse where
  | ok (p : SuccessPayload)
  | clientError (error : String)
deriving DecidableEq, Repr

/-- HTTP status of a handler response (`res.json` defaults to 200; the
catch block sets 400). -/
def ConvertResponse.status : ConvertResponse → Nat
  | .ok _ => 200
  | .clientError _ => 400

/-- The `POST /api/convert` handler (lines 89-128).  Every exception
thrown inside the `try` block lands in the single catch, which always
answers 400 with the error's message. -/
def handleConvert (req : Request) (now : String) : ConvertResponse :=
  let esqlContent := extractContent req
  let fileName := extractFileName req
  if ¬ optTruthy esqlContent then .clientError "No ESQL content provided"
  else
    match convertESQLToXSD (esqlContent.getD (.str "")) fileName now with
    | .error msg => .clientError msg
    | .ok xsd =>
      match outputFileName fileName with
      | .error msg => .clientError msg
      | .ok outName =>
        .ok { originalFileName := fileName.display
              convertedFileName := outName
              xsdContent := xsd
              esqlContentLength := (esqlContent.getD (.str "")).jsLength
              xsdContentLength := xsd.length
              conversionDate := now
              conversionType := "ESQL_TO_XSD" }

/-- A JSON value appearing in a rendered response object. -/
inductive JsonField where
  | str (s : String)
  | num (n : Nat)
  | bool (b : Bool)
deriving DecidableEq, Repr

/-- The JSON object literally produced by the two `res.json` calls of the
handler (lines 111-120 and 123-126), as an ordered field list. -/
def renderResponse : ConvertResponse → List (String × JsonField)
  | .ok p =>
    [("success", .bool true),
     ("originalFileName", .str p.originalFileName),
     ("convertedFileName", .str p.convertedFileName),
     ("xsdContent", .str p.xsdContent),
     ("esqlContentLength", .num p.esqlContentLength),
     ("xsdContentLength", .num p.xsdContentLength),
     ("conversionDate", .str p.conversionDate),
     ("conversionType", .str p.conversionType)]
  | .clientError e =>
    [("success", .bool false), ("error", .str e)]

/-- The response of the global error-handling middleware present in
revision 3 (lines 457-463): status 500 with a fixed generic body. -/
def errorMiddlewareResponse : Nat × List (String × JsonField) :=
  (500, [("success", .bool false), ("error", .str "Internal server error")])

/-! ### Well-formedness of the generated XML

"Well-formed XML" is formalised as: after erasing comments
(`<!-- ... -->`), the remaining text consists of processing
instructions (`<?...>`), self-closing tags (`<n .../>`), properly nested
matching open/close tag pairs, and character data without `<`. -/

/-- State of the comment-recognition half of the scanner: outside
comments (`out`), partway through the opener `<!--` (`lt`, `ltBang`,
`ltBangDash`), inside a comment (`inC`), or partway through the closer
`-->` (`dash`, `dashDash`). -/
inductive CMode where
  | out | lt | ltBang | ltBangDash | inC | dash | dashDash
deriving DecidableEq, Repr

/-- Comment-state transition on one character. -/
def cnext : CMode → Char → CMode
  | .out, c => if c = '<' then .lt else .out
  | .lt, c => if c = '!' then .ltBang else if c = '<' then .lt else .out
  | .ltBang, c => if c = '-' then .ltBangDash else if c = '<' then .lt else .out
  | .ltBangDash, c => if c = '-' then .inC else if c = '<' then .lt else .out
  | .inC, c => if c = '-' then .dash else .inC
  | .dash, c => if c = '-' then .dashDash else .inC
  | .dashDash, c => if c = '>' then .out else if c = '-' then .dashDash else .inC

/-- The non-comment characters released by one comment-state step, in
order.  Characters of a partially-seen `<!--` are withheld by the state
and released when the opener fails to complete. -/
def emitted : CMode → Char → List Char
  | .out, c => if c = '<' then [] else [c]
  | .lt, c => if c = '!' then [] else if c = '<' then ['<'] else ['<', c]
  | .ltBang, c => if c = '-' then [] else if c = '<' then ['<', '!'] else ['<', '!', c]
  | .ltBangDash, c =>
    if c = '-' then [] else if c = '<' then ['<', '!', '-'] else ['<', '!', '-', c]
  | .inC, _ => []
  | .dash, _ => []
  | .dashDash, _ => []

/-- Characters still withheld by a comment state at end of input. -/
def flushChars : CMode → List Char
  | .lt => ['<']
  | .ltBang => ['<', '!']
  | .ltBangDash => ['<', '!', '-']
  | _ => []

/-- The element name of a tag: its content up to the first whitespace or
`/`. -/
def tagName (t : List Char) : List Char :=
  t.takeWhile (fun c => ¬ (c = ' ' ∨ c = '\n' ∨ c = '\t' ∨ c = '\r' ∨ c = '/'))

/-- State of the tag-balance half of the scanner: a failure flag, the
stack of open element names, and the characters seen so far inside the
current tag (reversed), when inside a `< ... >`. -/
structure TagState where
  ok : Bool
  stack : List (List Char)
  buf : Option (List Char)
deriving DecidableEq, Repr

/-- One step of the tag-balance scanner over comment-free text.  A closed
tag is classified as processing instruction (`<? ... >`), closing tag
(`</n ...>`, which must match the innermost open element), self-closing
tag (`<n ... />`), or opening tag. -/
def tstep (st : TagState) (c : Char) : TagState :=
  match st.buf with
  | none => if c = '<' then { st with buf := some [] } else st
  | some b =>
    if c = '>' then
      let t := b.reverse
      if t.head? = some '?' then { st with buf := none }
      else if t.head? = some '/' then
        match st.stack with
        | [] => { ok := false, stack := [], buf := none }
        | top :: rest =>
          if tagName (t.drop 1) = top then { st with stack := rest, buf := none }
          else { ok := false, stack := rest, buf := none }
      else if t.getLast? = some '/' then { st with buf := none }
      else { st with stack := tagName t :: st.stack, buf := none }
    else { st with buf := some (c :: b) }

/-- Combined scanner state: comment state plus tag state. -/
structure XState where
  cmode : CMode
  tag : TagState
deriving DecidableEq, Repr

/-- One combined step: advance the comment state and feed the released
non-comment characters to the tag scanner. -/
def xstep (st : XState) (c : Char) : XState :=
  ⟨cnext st.cmode c, (emitted st.cmode c).foldl tstep st.tag⟩

/-- Run the combined scanner over a character list. -/
def scanL (st : XState) (l : List Char) : XState :=
  l.foldl xstep st

/-- Initial tag-scanner state. -/
def initialTag : TagState := ⟨true, [], none⟩

/-- Final acceptance test of the combined scanner. -/
def xfinal (st : XState) : Bool :=
  let tfin := (flushChars st.cmode).foldl tstep st.tag
  tfin.ok && tfin.stack.isEmpty && tfin.buf.isNone

/-- A string is well-formed XML when, scanning it with comments erased,
every tag closes, every opened element is closed in properly nested
order, and the text ends outside any tag or comment. -/
def wellFormedXml (s : String) : Bool :=
  xfinal (scanL ⟨.out, initialTag⟩ s.data)

/-- Whether a comment state is inside a comment body (between a complete
`<!--` and its `-->`). -/
def CMode.isInComment : CMode → Bool
  | .inC => true
  | .dash => true
  | .dashDash => true
  | _ => false

/-- `sub` occurs as a contiguous substring of `s`. -/
def containsStr (s sub : String) : Prop :=
  sub.data <:+: s.data

/-! Concrete scanner states reached while scanning the template.  The
`tag...` constants describe the good run (benign interpolations); the
`tagBad...` constants describe the run where the interpolated file name
`a--><a` escapes its comment. -/

/-- Tag state after the schema root element has been opened. -/
def tagSchema : TagState := ⟨true, ["xs:schema".data], none⟩

/-- Tag state inside an `xs:complexType`/`xs:sequence` pair (reached at
the end of the first and the penultimate schema-body chunk). -/
def tagSeqCplx : TagState :=
  ⟨true, ["xs:sequence".data, "xs:complexType".data, "xs:schema".data], none⟩

/-- Tag state inside an `xs:complexType` only. -/
def tagCplx : TagState :=
  ⟨true, ["xs:complexType".data, "xs:schema".data], none⟩

/-- Bad run: the injected `<a` is still an unfinished tag. -/
def tagBadOpen : TagState := ⟨true, ["xs:schema".data], some ['a']⟩

/-- Bad run: the stray element `a` has been opened and never closes. -/
def tagBadA : TagState := ⟨true, [['a'], "xs:schema".data], none⟩

/-- Bad run inside the first schema-body chunk. -/
def tagBadSeqCplx : TagState :=
  ⟨true, ["xs:sequence".data, "xs:complexType".data, ['a'], "xs:schema".data], none⟩

/-- Bad run inside an `xs:complexType` only. -/
def tagBadCplx : TagState :=
  ⟨true, ["xs:complexType".data, ['a'], "xs:schema".data], none⟩

/-- Bad run: the final state records the mismatched close tag. -/
def tagBadFinal : TagState := ⟨false, ["xs:schema".data], none⟩

/-- A fixed ISO-8601 timestamp used in concrete scenarios. -/
def now0 : String := "2025-01-01T00:00:00.000Z"

/-! ### Scanner lemmas -/

theorem scanL_append (st : XState) (a b : List Char) :
    scanL st (a ++ b) = scanL (scanL st a) b :=
  List.foldl_append ..

theorem scanL_cons (st : XState) (c : Char) (l : List Char) :
    scanL st (c :: l) = scanL (xstep st c) l := rfl

/-- Inside a comment, a non-`>` character leaves the tag state untouched
and keeps the scanner inside the comment. -/
theorem xstep_comment_tag (cm : CMode) (tg : TagState) (c : Char)
    (hm : cm.isInComment = true) (hc : c ≠ '>') :
    xstep ⟨cm, tg⟩ c = ⟨cnext cm c, tg⟩ ∧ (cnext cm c).isInComment = true := by
  cases cm with
  | inC =>
    refine ⟨rfl, ?_⟩
    by_cases hd : c = '-' <;> simp [cnext, hd, CMode.isInComment]
  | dash =>
    refine ⟨rfl, ?_⟩
    by_cases hd : c = '-' <;> simp [cnext, hd, CMode.isInComment]
  | dashDash =>
    refine ⟨rfl, ?_⟩
    by_cases hd : c = '-' <;> simp [cnext, hc, hd, CMode.isInComment]
  | out => simp [CMode.isInComment] at hm
  | lt => simp [CMode.isInComment] at hm
  | ltBang => simp [CMode.isInComment] at hm
  | ltBangDash => simp [CMode.isInComment] at hm

/-- Scanning any `>`-free text from inside a comment stays inside the
comment and leaves the tag state untouched. -/
theorem scanL_comment :
    ∀ (l : List Char) (cm : CMode) (tg : TagState), cm.isInComment = true →
      '>' ∉ l →
      ∃ cm₂, scanL ⟨cm, tg⟩ l = ⟨cm₂, tg⟩ ∧ cm₂.isInComment = true := by
  intro l
  induction l with
  | nil => exact fun cm tg hm _ => ⟨cm, rfl, hm⟩
  | cons c l ih =>
    intro cm tg hm hmem
    have hc : c ≠ '>' := by
      intro h
      exact hmem (h ▸ List.mem_cons_self c l)
    obtain ⟨h1, h2⟩ := xstep_comment_tag cm tg c hm hc
    obtain ⟨cm₂, h3, h4⟩ := ih (cnext cm c) tg h2 (fun h => hmem (List.mem_cons_of_mem c h))
    exact ⟨cm₂, by rw [scanL_cons, h1, h3], h4⟩

/-- From inside a comment, a space character resynchronises the comment
state to `inC`. -/
theorem xstep_comment_space (cm : CMode) (tg : TagState) (hm : cm.isInComment = true) :
    xstep ⟨cm, tg⟩ ' ' = ⟨.inC, tg⟩ := by
  cases cm <;> first | rfl | simp [CMode.isInComment] at hm

/-- The rendered template as the concatenation of its segments. -/
theorem xsdTemplate_data (fn now : String) :
    (xsdTemplate fn now).data =
      tplHead.data ++ (cmtFile.data ++ (fn.data ++ (tplMid.data ++
        (cmtOn.data ++ (now.data ++ tplTail.data))))) := by
  simp [xsdTemplate, String.data_append, List.append_assoc]

theorem tplTail_data :
    tplTail.data = tail0.data ++ (tail1.data ++ (tail2.data ++ (tail3.data ++
      (tail4.data ++ tail5.data)))) := by
  simp [tplTail, String.data_append, List.append_assoc]

/-! Concrete scanner runs over the constant template segments. -/

theorem scan_tplHead : scanL ⟨.out, initialTag⟩ tplHead.data = ⟨.out, tagSchema⟩ := by decide

theorem scan_cmtFile : scanL ⟨.out, tagSchema⟩ cmtFile.data = ⟨.inC, tagSchema⟩ := by decide

theorem tplMid_cons : tplMid.data = ' ' :: "-->\n    ".data := rfl

theorem scan_midRest : scanL ⟨.inC, tagSchema⟩ ("-->\n    ".data) = ⟨.out, tagSchema⟩ := by
  decide

theorem scan_cmtOn : scanL ⟨.out, tagSchema⟩ cmtOn.data = ⟨.inC, tagSchema⟩ := by decide

theorem tail0_cons : tail0.data = ' ' :: "-->\n    \n    ".data := rfl

theorem scan_tail0Rest :
    scanL ⟨.inC, tagSchema⟩ ("-->\n    \n    ".data) = ⟨.out, tagSchema⟩ := by decide

theorem scan_tail1 : scanL ⟨.out, tagSchema⟩ tail1.data = ⟨.out, tagSeqCplx⟩ := by decide

theorem scan_tail2 : scanL ⟨.out, tagSeqCplx⟩ tail2.data = ⟨.out, tagCplx⟩ := by decide

theorem scan_tail3 : scanL ⟨.out, tagCplx⟩ tail3.data = ⟨.out, tagSchema⟩ := by decide

theorem scan_tail4 : scanL ⟨.out, tagSchema⟩ tail4.data = ⟨.out, tagSeqCplx⟩ := by decide

theorem scan_tail5 : scanL ⟨.out, tagSeqCplx⟩ tail5.data = ⟨.out, initialTag⟩ := by decide

/-- The rendered document is well-formed XML whenever neither
interpolated string contains `>` (so neither can escape its comment). -/
theorem xsdTemplate_wellFormed (fn now : String)
    (hfn : '>' ∉ fn.data) (hnow : '>' ∉ now.data) :
    wellFormedXml (xsdTemplate fn now) = true := by
  obtain ⟨cmF, hF, hFc⟩ := scanL_comment fn.data .inC tagSchema rfl hfn
  obtain ⟨cmN, hN, hNc⟩ := scanL_comment now.data .inC tagSchema rfl hnow
  rw [wellFormedXml, xsdTemplate_data, tplTail_data]
  rw [scanL_append, scan_tplHead, scanL_append, scan_cmtFile, scanL_append, hF]
  rw [scanL_append, tplMid_cons, scanL_cons, xstep_comment_space cmF tagSchema hFc,
    scan_midRest]
  rw [scanL_append, scan_cmtOn, scanL_append, hN]
  rw [scanL_append, tail0_cons, scanL_cons, xstep_comment_space cmN tagSchema hNc,
    scan_tail0Rest]
  rw [scanL_append, scan_tail1, scanL_append, scan_tail2, scanL_append, scan_tail3,
    scanL_append, scan_tail4, scan_tail5]
  rfl

/-! Concrete scanner run for a file name that escapes its comment. -/

theorem scan_bad_fn : scanL ⟨.inC, tagSchema⟩ ("a--><a".data) = ⟨.out, tagBadOpen⟩ := by
  decide

theorem scan_bad_mid : scanL ⟨.out, tagBadOpen⟩ tplMid.data = ⟨.out, tagBadA⟩ := by decide

theorem scan_bad_cmtOn : scanL ⟨.out, tagBadA⟩ cmtOn.data = ⟨.inC, tagBadA⟩ := by decide

theorem scan_bad_now : scanL ⟨.inC, tagBadA⟩ now0.data = ⟨.inC, tagBadA⟩ := by decide

theorem scan_bad_tail0 : scanL ⟨.inC, tagBadA⟩ tail0.data = ⟨.out, tagBadA⟩ := by decide

theorem scan_bad_tail1 : scanL ⟨.out, tagBadA⟩ tail1.data = ⟨.out, tagBadSeqCplx⟩ := by decide

theorem scan_bad_tail2 : scanL ⟨.out, tagBadSeqCplx⟩ tail2.data = ⟨.out, tagBadCplx⟩ := by
  decide

theorem scan_bad_tail3 : scanL ⟨.out, tagBadCplx⟩ tail3.data = ⟨.out, tagBadA⟩ := by decide

theorem scan_bad_tail4 : scanL ⟨.out, tagBadA⟩ tail4.data = ⟨.out, tagBadSeqCplx⟩ := by decide

theorem scan_bad_tail5 : scanL ⟨.out, tagBadSeqCplx⟩ tail5.data = ⟨.out, tagBadFinal⟩ := by
  decide

/-- A file name containing `-->` followed by `<` escapes the generated
comment and ruins well-formedness. -/
theorem xsdTemplate_bad_notWellFormed :
    wellFormedXml (xsdTemplate "a--><a" now0) = false := by
  rw [wellFormedXml, xsdTemplate_data, tplTail_data]
  rw [scanL_append, scan_tplHead, scanL_append, scan_cmtFile, scanL_append, scan_bad_fn,
    scanL_append, scan_bad_mid, scanL_append, scan_bad_cmtOn, scanL_append, scan_bad_now,
    scanL_append, scan_bad_tail0, scanL_append, scan_bad_tail1, scanL_append, scan_bad_tail2,
    scanL_append, scan_bad_tail3, scanL_append, scan_bad_tail4, scan_bad_tail5]
  rfl

/-! ### Handler path lemmas -/

theorem handleConvert_ok (req : Request) (now s f : String)
    (hc : extractContent req = some (.str s)) (hf : extractFileName req = .str f)
    (hs : s ≠ "") (ht : jsTrim s ≠ "") :
    handleConvert req now = .ok
      { originalFileName := f
        convertedFileName := replaceEsqlSuffix f
        xsdContent := xsdTemplate f now
        esqlContentLength := s.length
        xsdContentLength := (xsdTemplate f now).length
        conversionDate := now
        conversionType := "ESQL_TO_XSD" } := by
  unfold handleConvert
  rw [hc, hf]
  simp [optTruthy, JSVal.truthy, hs, convertESQLToXSD, ht, outputFileName, JSVal.display,
    JSVal.jsLength]

theorem handleConvert_noContent (req : Request) (now : String)
    (h : optTruthy (extractContent req) = false) :
    handleConvert req now = .clientError "No ESQL content provided" := by
  simp [handleConvert, h]

theorem handleConvert_blank (req : Request) (now s : String)
    (hc : extractContent req = some (.str s)) (hs : s ≠ "") (ht : jsTrim s = "") :
    handleConvert req now = .clientError "ESQL content is empty" := by
  unfold handleConvert
  rw [hc]
  simp [optTruthy, JSVal.truthy, hs, convertESQLToXSD, ht]

theorem tplMid_split : tplMid.data = " -->".data ++ "\n    ".data := rfl

theorem tail0_split : tail0.data = " -->".data ++ "\n    \n    ".data := rfl

theorem xsdTemplate_contains_file (fn now : String) :
    containsStr (xsdTemplate fn now) (cmtFile ++ fn ++ " -->") := by
  unfold containsStr
  refine ⟨tplHead.data,
    "\n    ".data ++ (cmtOn.data ++ (now.data ++ tplTail.data)), ?_⟩
  rw [xsdTemplate_data]
  simp [String.data_append, tplMid_split, List.append_assoc]

theorem xsdTemplate_contains_now (fn now : String) :
    containsStr (xsdTemplate fn now) (cmtOn ++ now ++ " -->") := by
  unfold containsStr
  refine ⟨tplHead.data ++ (cmtFile.data ++ (fn.data ++ tplMid.data)),
    "\n    \n    ".data ++ (tail1.data ++ (tail2.data ++ (tail3.data ++
      (tail4.data ++ tail5.data)))), ?_⟩
  rw [xsdTemplate_data, tplTail_data]
  simp [String.data_append, tail0_split, List.append_assoc]

theorem replaceEsqlSuffix_end (p t : String) (ht : t.data.map Char.toLower = ".esql".data) :
    replaceEsqlSuffix (p ++ t) = p ++ ".xsd" := by
  have hlen : t.data.length = 5 := by
    have h5 := congrArg List.length ht
    simpa using h5
  unfold replaceEsqlSuffix
  rw [String.data_append, List.map_append, ht]
  have hsuf : ".esql".data.isSuffixOf (p.data.map Char.toLower ++ ".esql".data) = true :=
    List.isSuffixOf_iff_suffix.mpr (List.suffix_append _ _)
  rw [if_pos hsuf]
  have hl : (p.data ++ t.data).length - 5 = p.data.length := by
    simp [List.length_append, hlen]
  rw [hl, List.take_left]

theorem replaceEsqlSuffix_keep (s : String)
    (h : ¬ ∃ p t : String, s = p ++ t ∧ t.data.map Char.toLower = ".esql".data) :
    replaceEsqlSuffix s = s := by
  unfold replaceEsqlSuffix
  rw [if_neg]
  intro hsuf
  rw [List.isSuffixOf_iff_suffix] at hsuf
  obtain ⟨u, hu⟩ := hsuf
  apply h
  refine ⟨⟨s.data.take (s.data.length - 5)⟩, ⟨s.data.drop (s.data.length - 5)⟩, ?_, ?_⟩
  · apply String.ext
    simp [String.data_append, List.take_append_drop]
  · have hlenu : u.length + 5 = s.data.length := by
      have hlu := congrArg List.length hu
      simpa [List.length_append] using hlu
    have hdrop : (s.data.drop (s.data.length - 5)).map Char.toLower
        = (s.data.map Char.toLower).drop (s.data.length - 5) := List.map_drop ..
    rw [hdrop, ← hu]
    have he : s.data.length - 5 = u.length := by omega
    rw [he, List.drop_left]

end EsqlXsd
namespace EsqlXsd

/-! ### The claims -/

/-- Claim C1: for any two non-empty, non-whitespace-only ESQL content strings
converted with the same file name and at the same wall-clock time,
`convertESQLToXSD` returns the identical `xsdContent` string: the rendered
document depends only on the file name and the timestamp. -/
theorem claim_C1 (c₁ c₂ : String) (f : JSVal) (now : String)
    (h₁ : c₁ ≠ "") (h₁t : jsTrim c₁ ≠ "") (h₂ : c₂ ≠ "") (h₂t : jsTrim c₂ ≠ "") :
    convertESQLToXSD (.str c₁) f now = convertESQLToXSD (.str c₂) f now ∧
    convertESQLToXSD (.str c₁) f now = .ok (xsdTemplate f.display now) := by
  constructor <;> simp [convertESQLToXSD, JSVal.truthy, h₁, h₂, h₁t, h₂t]

/-- Witness for claim C1: two different concrete ESQL contents yield the same
document. -/
theorem claim_C1_witness :
    convertESQLToXSD (.str "CREATE COMPUTE MODULE Test") (.str "a.esql") now0
      = convertESQLToXSD (.str "SET OutputRoot = InputRoot;") (.str "a.esql") now0 :=
  (claim_C1 "CREATE COMPUTE MODULE Test" "SET OutputRoot = InputRoot;" (.str "a.esql") now0
    (by decide) (by decide) (by decide) (by decide)).1

/-- Counterexample to claim C2 as stated: the JSON body
`{"content": "", "filename": "x.esql"}` is answered with the error string
`No ESQL content provided` (thrown at line 105 before `convertESQLToXSD`
runs), not `ESQL content is empty` as the spec scenario says. -/
theorem claim_C2_counterexample :
    handleConvert ⟨none, .json (some (.str "")) none (some (.str "x.esql"))⟩ now0
      = .clientError "No ESQL content provided" ∧
    handleConvert ⟨none, .json (some (.str "")) none (some (.str "x.esql"))⟩ now0
      ≠ .clientError "ESQL content is empty" := by
  have h := handleConvert_noContent ⟨none, .json (some (.str "")) none (some (.str "x.esql"))⟩
    now0 rfl
  exact ⟨h, by rw [h]; decide⟩

/-- Claim C2 amended: the JSON body `{"content": "", "filename": "x.esql"}`
yields status 400 with body exactly
`{"success": false, "error": "No ESQL content provided"}`. -/
theorem claim_C2 (now : String) :
    handleConvert ⟨none, .json (some (.str "")) none (some (.str "x.esql"))⟩ now
      = .clientError "No ESQL content provided" ∧
    (handleConvert ⟨none, .json (some (.str "")) none (some (.str "x.esql"))⟩ now).status
      = 400 ∧
    renderResponse
        (handleConvert ⟨none, .json (some (.str "")) none (some (.str "x.esql"))⟩ now)
      = [("success", .bool false), ("error", .str "No ESQL content provided")] := by
  have h := handleConvert_noContent ⟨none, .json (some (.str "")) none (some (.str "x.esql"))⟩
    now rfl
  exact ⟨h, by rw [h]; rfl, by rw [h]; rfl⟩

/-- Counterexample to claim C3 as stated: a request whose JSON `filename`
field is the number `5` makes `fileName.replace` raise a `TypeError` — an
unexpected, non-validation exception — yet the caller receives a 400 whose
error string is the raw internal message, not the generic 500 response. -/
theorem claim_C3_counterexample :
    handleConvert ⟨none, .json (some (.str "CREATE COMPUTE MODULE Test")) none
        (some (.num 5))⟩ now0
      = .clientError "fileName.replace is not a function" ∧
    (handleConvert ⟨none, .json (some (.str "CREATE COMPUTE MODULE Test")) none
        (some (.num 5))⟩ now0).status = 400 ∧
    "fileName.replace is not a function" ≠ "Internal server error" := by
  have h : handleConvert ⟨none, .json (some (.str "CREATE COMPUTE MODULE Test")) none
      (some (.num 5))⟩ now0 = .clientError "fileName.replace is not a function" := by
    simp [handleConvert, extractContent, extractFileName, jsOr, jsOrDefault, JSVal.truthy,
      optTruthy, convertESQLToXSD, jsTrim, outputFileName]
    rfl
  exact ⟨h, by rw [h]; rfl, by decide⟩

/-- Claim C3 amended: every exception raised inside the `/api/convert`
handler's `try` block — validation or not — is answered by the route's own
catch block as a 200/400 response carrying the error's message; the generic
500 middleware response (revision 3 only) is never produced by this
handler. -/
theorem claim_C3 (req : Request) (now : String) :
    ((handleConvert req now).status = 200 ∨ (handleConvert req now).status = 400) ∧
    (handleConvert req now).status ≠ errorMiddlewareResponse.1 := by
  cases h : handleConvert req now <;>
    simp [ConvertResponse.status, errorMiddlewareResponse]

/-- Claim C4: whenever the extracted content is the empty string, a
whitespace-only string, or fell through to `undefined` (the JSON transport
with falsy fields), the handler answers 400 with a non-empty error
string, whichever transport carried the request. -/
theorem claim_C4 (req : Request) (now : String)
    (h : extractContent req = none ∨
      ∃ s, extractContent req = some (.str s) ∧ jsTrim s = "") :
    ∃ msg, handleConvert req now = .clientError msg ∧ msg ≠ "" ∧
      (handleConvert req now).status = 400 := by
  have key : handleConvert req now = .clientError "No ESQL content provided" ∨
      handleConvert req now = .clientError "ESQL content is empty" := by
    rcases h with h | ⟨s, hc, ht⟩
    · exact Or.inl (handleConvert_noContent req now (by rw [h]; rfl))
    · by_cases hs : s = ""
      · subst hs
        exact Or.inl (handleConvert_noContent req now (by rw [hc]; rfl))
      · exact Or.inr (handleConvert_blank req now s hc hs ht)
  rcases key with k | k
  · exact ⟨_, k, by decide, by rw [k]; rfl⟩
  · exact ⟨_, k, by decide, by rw [k]; rfl⟩

/-- Witness for claim C4: a JSON body whose `content` is three spaces. -/
theorem claim_C4_witness :
    ∃ msg, handleConvert ⟨none, .json (some (.str "   ")) none none⟩ now0
        = .clientError msg ∧ msg ≠ "" ∧
      (handleConvert ⟨none, .json (some (.str "   ")) none none⟩ now0).status = 400 :=
  claim_C4 _ now0 (Or.inr ⟨"   ", rfl, by decide⟩)

/-- Claim C5: `fileName.replace(/\.esql$/i, '.xsd')` replaces one trailing
case-insensitive `.esql` suffix by `.xsd`, and returns every other string
unchanged. -/
theorem claim_C5 (s : String) :
    (∀ p t : String, s = p ++ t → t.data.map Char.toLower = ".esql".data →
      replaceEsqlSuffix s = p ++ ".xsd") ∧
    ((¬ ∃ p t : String, s = p ++ t ∧ t.data.map Char.toLower = ".esql".data) →
      replaceEsqlSuffix s = s) := by
  constructor
  · intro p t hs ht
    subst hs
    exact replaceEsqlSuffix_end p t ht
  · exact replaceEsqlSuffix_keep s

/-- Witness for claim C5: `a.ESQL` becomes `a.xsd`; `x` is unchanged. -/
theorem claim_C5_witness :
    replaceEsqlSuffix "a.ESQL" = "a" ++ ".xsd" ∧ replaceEsqlSuffix "x" = "x" := by
  constructor
  · exact (claim_C5 "a.ESQL").1 "a" ".ESQL" (by decide) (by decide)
  · refine (claim_C5 "x").2 ?_
    rintro ⟨p, t, h1, h2⟩
    have hlen : t.data.length = 5 := by simpa using congrArg List.length h2
    have hd : p.data ++ t.data = "x".data := by rw [← String.data_append, ← h1]
    have hone : "x".data.length = 1 := rfl
    have htot := congrArg List.length hd
    rw [List.length_append, hlen, hone] at htot
    omega

/-- Counterexample to claim C6 as stated: a successful (200) conversion of a
non-empty, non-whitespace-only content whose file name is `a--><a` returns
an `xsdContent` that is not well-formed XML — the file name escapes the
generated comment. -/
theorem claim_C6_counterexample :
    ∃ p, handleConvert ⟨none, .json (some (.str "CREATE COMPUTE MODULE Test")) none
        (some (.str "a--><a"))⟩ now0 = .ok p ∧
      wellFormedXml p.xsdContent = false := by
  refine ⟨_, handleConvert_ok _ now0 "CREATE COMPUTE MODULE Test" "a--><a" rfl ?hf
    (by decide) (by decide), ?_⟩
  case hf =>
    rfl
  exact xsdTemplate_bad_notWellFormed

/-- Claim C6 amended: for every non-empty, non-whitespace-only input text,
the successful response's `xsdContentLength` equals the length of its
`xsdContent`, and `xsdContent` is well-formed XML provided neither the file
name nor the timestamp contains a `>` character (so neither interpolation
can escape its comment). -/
theorem claim_C6 (req : Request) (now s f : String)
    (hc : extractContent req = some (.str s)) (hf : extractFileName req = .str f)
    (hs : s ≠ "") (ht : jsTrim s ≠ "")
    (hfn : '>' ∉ f.data) (hnow : '>' ∉ now.data) :
    ∃ p, handleConvert req now = .ok p ∧
      p.xsdContentLength = p.xsdContent.length ∧
      wellFormedXml p.xsdContent = true := by
  refine ⟨_, handleConvert_ok req now s f hc hf hs ht, rfl, ?_⟩
  exact xsdTemplate_wellFormed f now hfn hnow

/-- Witness for claim C6 (amended) at the multipart `sample.esql`
scenario. -/
theorem claim_C6_witness :
    ∃ p, handleConvert ⟨some ⟨"sample.esql", "CREATE COMPUTE MODULE Test\nEND MODULE;"⟩,
        .absent⟩ now0 = .ok p ∧
      p.xsdContentLength = p.xsdContent.length ∧
      wellFormedXml p.xsdContent = true :=
  claim_C6 _ now0 "CREATE COMPUTE MODULE Test\nEND MODULE;" "sample.esql" rfl rfl
    (by decide) (by decide) (by decide) (by decide)

/-- Claim C7: every successful conversion embeds the literal comments
`<!-- Generated from ESQL file: f -->` and `<!-- Generated on: now -->` in
`xsdContent`; in particular a multipart upload named `sample.esql` converts
to `convertedFileName = "sample.xsd"`. -/
theorem claim_C7 (f data now : String) (hd : data ≠ "") (hdt : jsTrim data ≠ "") :
    ∃ p, handleConvert ⟨some ⟨f, data⟩, .absent⟩ now = .ok p ∧
      containsStr p.xsdContent ("<!-- Generated from ESQL file: " ++ f ++ " -->") ∧
      containsStr p.xsdContent ("<!-- Generated on: " ++ now ++ " -->") ∧
      (f = "sample.esql" → p.convertedFileName = "sample.xsd") := by
  refine ⟨_, handleConvert_ok _ now data f rfl rfl hd hdt, ?_, ?_, ?_⟩
  · exact xsdTemplate_contains_file f now
  · exact xsdTemplate_contains_now f now
  · intro hf
    subst hf
    show replaceEsqlSuffix "sample.esql" = "sample.xsd"
    decide

/-- Witness for claim C7: the multipart `sample.esql` scenario with content
`CREATE COMPUTE MODULE Test\nEND MODULE;`. -/
theorem claim_C7_witness :
    ∃ p, handleConvert ⟨some ⟨"sample.esql", "CREATE COMPUTE MODULE Test\nEND MODULE;"⟩,
        .absent⟩ now0 = .ok p ∧
      containsStr p.xsdContent
        ("<!-- Generated from ESQL file: " ++ "sample.esql" ++ " -->") ∧
      containsStr p.xsdContent ("<!-- Generated on: " ++ now0 ++ " -->") ∧
      ("sample.esql" = "sample.esql" → p.convertedFileName = "sample.xsd") :=
  claim_C7 "sample.esql" "CREATE COMPUTE MODULE Test\nEND MODULE;" now0
    (by decide) (by decide)

/-- Claim C8: a raw plain-text body with non-empty, non-whitespace-only
content and no file attached succeeds (200) with `originalFileName` equal
to the default placeholder `input.esql`. -/
theorem claim_C8 (s now : String) (hs : s ≠ "") (ht : jsTrim s ≠ "") :
    ∃ p, handleConvert ⟨none, .text s⟩ now = .ok p ∧
      p.originalFileName = "input.esql" ∧
      (handleConvert ⟨none, .text s⟩ now).status = 200 := by
  have h := handleConvert_ok ⟨none, .text s⟩ now s "input.esql" rfl rfl hs ht
  exact ⟨_, h, rfl, by rw [h]; rfl⟩

/-- Witness for claim C8 at a concrete raw-text request. -/
theorem claim_C8_witness :
    ∃ p, handleConvert ⟨none, .text "CREATE COMPUTE MODULE Test"⟩ now0 = .ok p ∧
      p.originalFileName = "input.esql" ∧
      (handleConvert ⟨none, .text "CREATE COMPUTE MODULE Test"⟩ now0).status = 200 :=
  claim_C8 "CREATE COMPUTE MODULE Test" now0 (by decide) (by decide)

/-- Claim C9: every handler response is either a 200 whose JSON object has
exactly the eight documented fields with `success = true`, or a 400 whose
JSON object has exactly `success = false` and a string `error` field. -/
theorem claim_C9 (req : Request) (now : String) :
    (∃ p, handleConvert req now = .ok p ∧ (handleConvert req now).status = 200 ∧
      (renderResponse (handleConvert req now)).map Prod.fst =
        ["success", "originalFileName", "convertedFileName", "xsdContent",
         "esqlContentLength", "xsdContentLength", "conversionDate", "conversionType"] ∧
      (renderResponse (handleConvert req now)).lookup "success" = some (.bool true)) ∨
    (∃ e, handleConvert req now = .clientError e ∧ (handleConvert req now).status = 400 ∧
      (renderResponse (handleConvert req now)).map Prod.fst = ["success", "error"] ∧
      (renderResponse (handleConvert req now)).lookup "success" = some (.bool false) ∧
      (renderResponse (handleConvert req now)).lookup "error" = some (.str e)) := by
  cases h : handleConvert req now with
  | ok p =>
    left
    exact ⟨p, rfl, rfl, rfl, rfl⟩
  | clientError e =>
    right
    exact ⟨e, rfl, rfl, rfl, rfl, rfl⟩

/-- Claim C10: a JSON `filename` equal to the empty string is treated as
absent (the request behaves exactly like one with no `filename`, and
`originalFileName` is the default `input.esql`); and a JSON body with
`content = ""` and a non-empty `esqlContent` silently takes its content
from `esqlContent` — both because the fallbacks test truthiness. -/
theorem claim_C10 (now c e : String)
    (hc : c ≠ "") (hct : jsTrim c ≠ "") (he : e ≠ "") (het : jsTrim e ≠ "") :
    (handleConvert ⟨none, .json (some (.str c)) none (some (.str ""))⟩ now
       = handleConvert ⟨none, .json (some (.str c)) none none⟩ now ∧
     ∃ p, handleConvert ⟨none, .json (some (.str c)) none (some (.str ""))⟩ now = .ok p ∧
       p.originalFileName = "input.esql") ∧
    (∃ q, handleConvert ⟨none, .json (some (.str "")) (some (.str e)) none⟩ now = .ok q ∧
       q.esqlContentLength = e.length) := by
  have hex : extractContent ⟨none, .json (some (.str c)) none (some (.str ""))⟩
      = some (.str c) := by
    simp [extractContent, jsOr, JSVal.truthy, hc]
  have hex2 : extractContent ⟨none, .json (some (.str c)) none none⟩ = some (.str c) := by
    simp [extractContent, jsOr, JSVal.truthy, hc]
  have h1 := handleConvert_ok ⟨none, .json (some (.str c)) none (some (.str ""))⟩ now c
    "input.esql" hex rfl hc hct
  have h2 := handleConvert_ok ⟨none, .json (some (.str c)) none none⟩ now c
    "input.esql" hex2 rfl hc hct
  have h3 := handleConvert_ok ⟨none, .json (some (.str "")) (some (.str e)) none⟩ now e
    "input.esql" rfl rfl he het
  exact ⟨⟨h1.trans h2.symm, _, h1, rfl⟩, _, h3, rfl⟩

/-- Witness for claim C10 at concrete contents. -/
theorem claim_C10_witness :
    (handleConvert ⟨none, .json (some (.str "CREATE COMPUTE MODULE Test")) none
        (some (.str ""))⟩ now0
       = handleConvert ⟨none, .json (some (.str "CREATE COMPUTE MODULE Test")) none none⟩
          now0 ∧
     ∃ p, handleConvert ⟨none, .json (some (.str "CREATE COMPUTE MODULE Test")) none
        (some (.str ""))⟩ now0 = .ok p ∧
       p.originalFileName = "input.esql") ∧
    (∃ q, handleConvert ⟨none, .json (some (.str "")) (some (.str "SET x = 1;")) none⟩ now0
        = .ok q ∧
       q.esqlContentLength = ("SET x = 1;" : String).length) :=
  claim_C10 now0 "CREATE COMPUTE MODULE Test" "SET x = 1;"
    (by decide) (by decide) (by decide) (by decide)

end EsqlXsd
